import Mathlib

/-!
# Verification of the `ptwalk` page-table-walk command

A shallow embedding of `src/pagetablewalk.py`.  Python integers are
unbounded, so they are modelled by `Int`; Python's `>>` on negative
integers is an arithmetic shift, which matches `Int.shiftRight`, and
Python's `&` is two's-complement bitwise and, which matches `Int.land`.
Table entries are produced by `int.from_bytes` of 8 bytes and are
therefore natural numbers; they are modelled by `Nat`.

The three external collaborators are modelled as explicit inputs:
the memory reader is a function `Int → Option Nat` (`none` models a
`read_memory` exception), the register reader an `Option Int` (`none`
models a failing `parse_and_eval("$cr3")`), and the physical-addressing
mode toggle is recorded as an event.  Every collaborator invocation is
recorded, in order, in an event list so that call-sequencing claims can
be stated directly.
-/

namespace PTWalk

/-- The four page-table levels visited by the walk. -/
inductive Level : Type
  | PML4
  | PDPT
  | PD
  | PT
deriving DecidableEq, Repr

/-- One collaborator invocation performed by the command.
`modeSet b` models `gdb.execute("maintenance packet Qqemu.PhyMemMode:b")`
(lines 20 and 25), `regRead` models `gdb.parse_and_eval("$cr3")`
(line 45), and `memRead l a` models `inferior.read_memory(a, 8)` issued
for the entry of level `l` (line 75). -/
inductive Event : Type
  | modeSet (enabled : Bool)
  | regRead
  | memRead (level : Level) (addr : Int)
deriving DecidableEq, Repr

/-- One per-level record of the diagnostic trace: the "Entry @ addr = value"
line printed for each level whose entry was successfully read
(lines 91, 103, 122, 141), together with the table base used. -/
structure TraceRec : Type where
  level : Level
  tableBase : Int
  entryAddr : Int
  rawEntry : Nat
deriving DecidableEq, Repr

/-- Outcome of the walk proper (lines 83-149): success carries the final
physical address and the page size in bytes (`0x1000`, `0x200000` or
`0x40000000`); `absentAt l` models the "entry not present!" early return
at level `l`; `readFailedAt l` models a failed memory read at level `l`. -/
inductive WalkResult : Type
  | success (physAddr : Int) (pageSize : Nat)
  | absentAt (level : Level)
  | readFailedAt (level : Level)
deriving DecidableEq, Repr

/-- Everything observable about one run of the walk: the collaborator
calls made (in order), the per-level trace, and the outcome. -/
structure WalkOut : Type where
  events : List Event
  trace : List TraceRec
  result : WalkResult
deriving DecidableEq, Repr

/-- `pml4_index = (vaddr >> 39) & 0x1FF` (line 54). -/
def pml4_index (vaddr : Int) : Int := Int.land (Int.shiftRight vaddr 39) 0x1FF

/-- `pdpt_index = (vaddr >> 30) & 0x1FF` (line 55). -/
def pdpt_index (vaddr : Int) : Int := Int.land (Int.shiftRight vaddr 30) 0x1FF

/-- `pd_index = (vaddr >> 21) & 0x1FF` (line 56). -/
def pd_index (vaddr : Int) : Int := Int.land (Int.shiftRight vaddr 21) 0x1FF

/-- `pt_index = (vaddr >> 12) & 0x1FF` (line 57). -/
def pt_index (vaddr : Int) : Int := Int.land (Int.shiftRight vaddr 12) 0x1FF

/-- `page_offset = vaddr & 0xFFF` (line 58). -/
def page_offset (vaddr : Int) : Int := Int.land vaddr 0xFFF

/-- `pml4_base = cr3_val & 0xFFFFFFFFF000` (line 84). -/
def pml4_base (cr3_val : Int) : Int := Int.land cr3_val 0xFFFFFFFFF000

/-- `pml4_entry_addr = pml4_base + pml4_index * 8` (line 87). -/
def pml4_entry_addr (cr3_val vaddr : Int) : Int :=
  pml4_base cr3_val + pml4_index vaddr * 8

/-- `pdpt_entry_addr = (pml4_entry & 0xFFFFFFFFF000) + pdpt_index * 8`
(lines 98-99); the entry is a `Nat`, so the mask is on `Nat`. -/
def pdpt_entry_addr (pml4_entry : Nat) (vaddr : Int) : Int :=
  ((pml4_entry &&& 0xFFFFFFFFF000 : Nat) : Int) + pdpt_index vaddr * 8

/-- `pd_entry_addr = (pdpt_entry & 0xFFFFFFFFF000) + pd_index * 8`
(lines 117-118). -/
def pd_entry_addr (pdpt_entry : Nat) (vaddr : Int) : Int :=
  ((pdpt_entry &&& 0xFFFFFFFFF000 : Nat) : Int) + pd_index vaddr * 8

/-- `pt_entry_addr = (pd_entry & 0xFFFFFFFFF000) + pt_index * 8`
(lines 136-137). -/
def pt_entry_addr (pd_entry : Nat) (vaddr : Int) : Int :=
  ((pd_entry &&& 0xFFFFFFFFF000 : Nat) : Int) + pt_index vaddr * 8

/-- The page-table walk of `ptwalk`, lines 83-149 of
`src/pagetablewalk.py`: four sequential entry reads with present-bit
checks at every level, 1 GiB huge-page check at PDPT (bit 7, line 109),
2 MiB huge-page check at PD (bit 7, line 128), and the final 4 KiB
combination `(pt_entry & 0xFFFFFFFFF000) + page_offset` (lines 147-148). -/
def walk (mem : Int → Option Nat) (cr3_val vaddr : Int) : WalkOut :=
  let a1 := pml4_entry_addr cr3_val vaddr
  match mem a1 with
  | none => ⟨[.memRead .PML4 a1], [], .readFailedAt .PML4⟩
  | some pml4_entry =>
    let r1 : TraceRec := ⟨.PML4, pml4_base cr3_val, a1, pml4_entry⟩
    if pml4_entry &&& 0x1 = 0 then
      ⟨[.memRead .PML4 a1], [r1], .absentAt .PML4⟩
    else
      let a2 := pdpt_entry_addr pml4_entry vaddr
      match mem a2 with
      | none => ⟨[.memRead .PML4 a1, .memRead .PDPT a2], [r1], .readFailedAt .PDPT⟩
      | some pdpt_entry =>
        let r2 : TraceRec :=
          ⟨.PDPT, ((pml4_entry &&& 0xFFFFFFFFF000 : Nat) : Int), a2, pdpt_entry⟩
        if pdpt_entry &&& 0x1 = 0 then
          ⟨[.memRead .PML4 a1, .memRead .PDPT a2], [r1, r2], .absentAt .PDPT⟩
        else if pdpt_entry &&& (1 <<< 7) ≠ 0 then
          ⟨[.memRead .PML4 a1, .memRead .PDPT a2], [r1, r2],
            .success (((pdpt_entry &&& 0xFFFFFC0000000 : Nat) : Int) +
              Int.land vaddr 0x3FFFFFFF) 0x40000000⟩
        else
          let a3 := pd_entry_addr pdpt_entry vaddr
          match mem a3 with
          | none =>
            ⟨[.memRead .PML4 a1, .memRead .PDPT a2, .memRead .PD a3], [r1, r2],
              .readFailedAt .PD⟩
          | some pd_entry =>
            let r3 : TraceRec :=
              ⟨.PD, ((pdpt_entry &&& 0xFFFFFFFFF000 : Nat) : Int), a3, pd_entry⟩
            if pd_entry &&& 0x1 = 0 then
              ⟨[.memRead .PML4 a1, .memRead .PDPT a2, .memRead .PD a3],
                [r1, r2, r3], .absentAt .PD⟩
            else if pd_entry &&& (1 <<< 7) ≠ 0 then
              ⟨[.memRead .PML4 a1, .memRead .PDPT a2, .memRead .PD a3],
                [r1, r2, r3],
                .success (((pd_entry &&& 0xFFFFFFE00000 : Nat) : Int) +
                  Int.land vaddr 0x1FFFFF) 0x200000⟩
            else
              let a4 := pt_entry_addr pd_entry vaddr
              match mem a4 with
              | none =>
                ⟨[.memRead .PML4 a1, .memRead .PDPT a2, .memRead .PD a3,
                    .memRead .PT a4], [r1, r2, r3], .readFailedAt .PT⟩
              | some pt_entry =>
                let r4 : TraceRec :=
                  ⟨.PT, ((pd_entry &&& 0xFFFFFFFFF000 : Nat) : Int), a4, pt_entry⟩
                if pt_entry &&& 0x1 = 0 then
                  ⟨[.memRead .PML4 a1, .memRead .PDPT a2, .memRead .PD a3,
                      .memRead .PT a4], [r1, r2, r3, r4], .absentAt .PT⟩
                else
                  ⟨[.memRead .PML4 a1, .memRead .PDPT a2, .memRead .PD a3,
                      .memRead .PT a4], [r1, r2, r3, r4],
                    .success (((pt_entry &&& 0xFFFFFFFFF000 : Nat) : Int) +
                      page_offset vaddr) 0x1000⟩

/-- Decimal digit value, `'0'..'9'`. -/
def decDV (c : Char) : Option Nat :=
  if '0' ≤ c ∧ c ≤ '9' then some (c.toNat - '0'.toNat) else none

/-- Hexadecimal digit value, `'0'..'9'`, `'a'..'f'`, `'A'..'F'`. -/
def hexDV (c : Char) : Option Nat :=
  if '0' ≤ c ∧ c ≤ '9' then some (c.toNat - '0'.toNat)
  else if 'a' ≤ c ∧ c ≤ 'f' then some (c.toNat - 'a'.toNat + 10)
  else if 'A' ≤ c ∧ c ≤ 'F' then some (c.toNat - 'A'.toNat + 10)
  else none

/-- Binary digit value, `'0'` or `'1'`. -/
def binDV (c : Char) : Option Nat :=
  if c = '0' ∨ c = '1' then some (c.toNat - '0'.toNat) else none

/-- Octal digit value, `'0'..'7'`. -/
def octDV (c : Char) : Option Nat :=
  if '0' ≤ c ∧ c ≤ '7' then some (c.toNat - '0'.toNat) else none

/-- Digit value accepting only `'0'` (used after a leading zero of a
decimal literal, where CPython only allows further zeros). -/
def zeroDV (c : Char) : Option Nat :=
  if c = '0' then some 0 else none

/-- Consume the remaining digits of an integer literal, allowing a single
underscore between two digits (CPython's `_` grouping rule), folding the
value into the accumulator `acc`.  Fails on a trailing or doubled
underscore or a non-digit. -/
def digitsRest (dv : Char → Option Nat) (b : Nat) : Nat → List Char → Option Nat
  | acc, [] => some acc
  | acc, c :: cs =>
    if c = '_' then
      match cs with
      | [] => none
      | c2 :: cs2 =>
        match dv c2 with
        | some d => digitsRest dv b (acc * b + d) cs2
        | none => none
    else
      match dv c with
      | some d => digitsRest dv b (acc * b + d) cs
      | none => none

/-- Consume a nonempty digit run that must start with a digit (no leading
underscore). -/
def firstDigit (dv : Char → Option Nat) (b : Nat) : List Char → Option Nat
  | [] => none
  | c :: cs =>
    match dv c with
    | some d => digitsRest dv b d cs
    | none => none

/-- Digits after a base marker such as `0x`: CPython additionally allows a
single underscore directly after the marker (`0x_1F` parses). -/
def afterBaseMarker (dv : Char → Option Nat) (b : Nat) : List Char → Option Nat
  | '_' :: cs => firstDigit dv b cs
  | cs => firstDigit dv b cs

/-- The unsigned part of CPython's `int(s, 0)` literal syntax: `0x`/`0X`
hexadecimal, `0b`/`0B` binary, `0o`/`0O` octal, or decimal where a
leading `'0'` forces every further digit to be `'0'` (so `"010"` is
rejected while `"00"` parses as 0). -/
def pyParseNat0 (cs : List Char) : Option Nat :=
  match cs with
  | [] => none
  | c :: rest =>
    if c = '0' then
      match rest with
      | [] => some 0
      | c2 :: rest2 =>
        if c2 = 'x' ∨ c2 = 'X' then afterBaseMarker hexDV 16 rest2
        else if c2 = 'b' ∨ c2 = 'B' then afterBaseMarker binDV 2 rest2
        else if c2 = 'o' ∨ c2 = 'O' then afterBaseMarker octDV 8 rest2
        else digitsRest zeroDV 10 0 (c2 :: rest2)
    else
      match decDV c with
      | some d => digitsRest decDV 10 d rest
      | none => none

/-- ASCII whitespace stripped by CPython's `int`. -/
def isPySpace (c : Char) : Bool :=
  c = ' ' ∨ c = '\t' ∨ c = '\n' ∨ c = '\r' ∨ c = '\x0b' ∨ c = '\x0c'

/-- Strip leading and trailing whitespace. -/
def pyStrip (cs : List Char) : List Char :=
  ((cs.dropWhile isPySpace).reverse.dropWhile isPySpace).reverse

/-- The code points ≥ 127 that CPython's `int` treats as whitespace
(`Py_UNICODE_ISSPACE`), enumerated from CPython 3.11's Unicode
database. -/
def uniSpaceList : List Nat :=
  [0x85, 0xA0, 0x1680, 0x2000, 0x2001, 0x2002, 0x2003, 0x2004, 0x2005,
   0x2006, 0x2007, 0x2008, 0x2009, 0x200A, 0x2028, 0x2029, 0x202F,
   0x205F, 0x3000]

/-- First code point of every run of ten consecutive Unicode decimal
digits (category Nd) above ASCII, enumerated from CPython 3.11's
Unicode database; `Py_UNICODE_TODECIMAL` maps the code point `s + d`
of each run to the digit value `d`. -/
def uniDigitStarts : List Nat :=
  [0x660, 0x6F0, 0x7C0, 0x966, 0x9E6, 0xA66,
   0xAE6, 0xB66, 0xBE6, 0xC66, 0xCE6, 0xD66,
   0xDE6, 0xE50, 0xED0, 0xF20, 0x1040, 0x1090,
   0x17E0, 0x1810, 0x1946, 0x19D0, 0x1A80, 0x1A90,
   0x1B50, 0x1BB0, 0x1C40, 0x1C50, 0xA620, 0xA8D0,
   0xA900, 0xA9D0, 0xA9F0, 0xAA50, 0xABF0, 0xFF10,
   0x104A0, 0x10D30, 0x11066, 0x110F0, 0x11136, 0x111D0,
   0x112F0, 0x11450, 0x114D0, 0x11650, 0x116C0, 0x11730,
   0x118E0, 0x11950, 0x11C50, 0x11D50, 0x11DA0, 0x16A60,
   0x16AC0, 0x16B50, 0x1D7CE, 0x1D7D8, 0x1D7E2, 0x1D7EC,
   0x1D7F6, 0x1E140, 0x1E2F0, 0x1E950, 0x1FBF0]

/-- CPython's `_PyUnicode_TransformDecimalAndSpaceToASCII`, applied by
`int` to any string containing a character ≥ 128, one character at a
time: characters below 127 are kept, Unicode whitespace becomes `' '`,
a Unicode decimal digit becomes the corresponding ASCII digit, and
anything else becomes `'?'` (which no integer syntax accepts). -/
def pyTransformChar (c : Char) : Char :=
  if c.toNat < 127 then c
  else if uniSpaceList.contains c.toNat then ' '
  else
    match uniDigitStarts.find? (fun s => decide (s ≤ c.toNat ∧ c.toNat ≤ s + 9)) with
    | some s => Char.ofNat ('0'.toNat + (c.toNat - s))
    | none => '?'

/-- Model of CPython's `int(s, 0)` as called on line 36 of
`src/pagetablewalk.py`.  A string of characters all below 128 is parsed
directly (CPython's `PyUnicode_IS_ASCII` fast path); any other string
is first transformed character-wise with `pyTransformChar`, so Unicode
decimal digits and Unicode whitespace are accepted.  The ASCII parse
itself allows surrounding whitespace, an optional single sign, then an
integer literal in base 16 (`0x`), 2 (`0b`), 8 (`0o`) or 10, with
underscore grouping.  `none` models the raised `ValueError`. -/
def pyParseInt0 (s : String) : Option Int :=
  let cs := if s.toList.all (fun c => c.toNat < 128) then s.toList
            else s.toList.map pyTransformChar
  match pyStrip cs with
  | '+' :: rest => (pyParseNat0 rest).map (fun n => (n : Int))
  | '-' :: rest => (pyParseNat0 rest).map (fun n => -(n : Int))
  | rest => (pyParseNat0 rest).map (fun n => (n : Int))

/-- Outcome of one `ptwalk` invocation: `invalidAddress` models the
"Invalid address" early return (lines 37-41), `registerUnavailable` the
"Error reading CR3 register" early return (lines 46-48), and
`walkResult` wraps the walk's outcome. -/
inductive TransResult : Type
  | invalidAddress
  | registerUnavailable
  | walkResult (r : WalkResult)
deriving DecidableEq, Repr

/-- Everything observable about one run of `ptwalk` (or of `invoke`):
collaborator calls in order, the trace, and the outcome. -/
structure RunOut : Type where
  events : List Event
  trace : List TraceRec
  result : TransResult
deriving DecidableEq, Repr

/-- The body of `PageTableWalk.ptwalk` (lines 27-149) for a single
argument token: parse the address with `int(arg, 0)`, read `$cr3` from
the register collaborator (`none` models the exception path), then run
the walk. -/
def ptwalk (mem : Int → Option Nat) (cr3 : Option Int) (arg : String) : RunOut :=
  match pyParseInt0 arg with
  | none => ⟨[], [], .invalidAddress⟩
  | some vaddr =>
    match cr3 with
    | none => ⟨[.regRead], [], .registerUnavailable⟩
    | some cr3_val =>
      let w := walk mem cr3_val vaddr
      ⟨.regRead :: w.events, w.trace, .walkResult w.result⟩

/-- `PageTableWalk.invoke` (lines 18-25): enable physical-memory mode,
run `ptwalk`, revert physical-memory mode.  All the failure paths of
`ptwalk` modelled here are early `return`s, not escaping exceptions, so
the trailing disable always runs. -/
def invoke (mem : Int → Option Nat) (cr3 : Option Int) (arg : String) : RunOut :=
  let r := ptwalk mem cr3 arg
  ⟨.modeSet true :: (r.events ++ [.modeSet false]), r.trace, r.result⟩

/-!
## Claim theorems
-/

/-- C2: for every virtual address and every collaborator behaviour in
which the PML4 entry is read successfully and present and the PDPT entry
is read successfully with bit 0 and bit 7 both set, the walk terminates
with a 1 GiB page whose physical address is
`(pdpt_entry & 0xFFFFFC0000000) + (vaddr & 0x3FFFFFFF)` — the mask
`0xFFFFFC0000000` is exactly bits 51:30 — and the PD and PT levels are
never read. -/
theorem walk_1gb_huge_page (mem : Int → Option Nat) (cr3_val vaddr : Int)
    (e1 e2 : Nat)
    (h1 : mem (pml4_entry_addr cr3_val vaddr) = some e1)
    (hp1 : e1 &&& 0x1 ≠ 0)
    (h2 : mem (pdpt_entry_addr e1 vaddr) = some e2)
    (hp2 : e2 &&& 0x1 ≠ 0)
    (hh2 : e2 &&& (1 <<< 7) ≠ 0) :
    walk mem cr3_val vaddr =
      ⟨[.memRead .PML4 (pml4_entry_addr cr3_val vaddr),
        .memRead .PDPT (pdpt_entry_addr e1 vaddr)],
       [⟨.PML4, pml4_base cr3_val, pml4_entry_addr cr3_val vaddr, e1⟩,
        ⟨.PDPT, ((e1 &&& 0xFFFFFFFFF000 : Nat) : Int), pdpt_entry_addr e1 vaddr, e2⟩],
       .success (((e2 &&& 0xFFFFFC0000000 : Nat) : Int) + Int.land vaddr 0x3FFFFFFF)
         0x40000000⟩ ∧
    (∀ a : Int, Event.memRead .PD a ∉ (walk mem cr3_val vaddr).events ∧
      Event.memRead .PT a ∉ (walk mem cr3_val vaddr).events) := by
  have hp1' : e1 % 2 ≠ 0 := by simpa [Nat.and_one_is_mod] using hp1
  have hp2' : e2 % 2 ≠ 0 := by simpa [Nat.and_one_is_mod] using hp2
  have hh2' : e2 &&& 128 ≠ 0 := by simpa using hh2
  have hmain : walk mem cr3_val vaddr =
      ⟨[.memRead .PML4 (pml4_entry_addr cr3_val vaddr),
        .memRead .PDPT (pdpt_entry_addr e1 vaddr)],
       [⟨.PML4, pml4_base cr3_val, pml4_entry_addr cr3_val vaddr, e1⟩,
        ⟨.PDPT, ((e1 &&& 0xFFFFFFFFF000 : Nat) : Int), pdpt_entry_addr e1 vaddr, e2⟩],
       .success (((e2 &&& 0xFFFFFC0000000 : Nat) : Int) + Int.land vaddr 0x3FFFFFFF)
         0x40000000⟩ := by
    simp only [walk, h1, h2]
    simp [hp1', hp2', hh2']
  refine ⟨hmain, ?_⟩
  intro a
  rw [hmain]
  simp

/-- A concrete memory with a present PML4 entry at 0 pointing to a table
at 0x1000 whose entry 0 is a present 1 GiB huge page based at
0x40000000. -/
def mem1g : Int → Option Nat := fun a =>
  if a = 0 then some 0x1001 else if a = 0x1000 then some 0x40000081 else none

/-- Witness for `walk_1gb_huge_page` at the spec's own example: base
frame 0x40000000, in-page offset 0x12345678. -/
theorem walk_1gb_huge_page_witness :
    mem1g (pml4_entry_addr 0 0x12345678) = some 0x1001 ∧
    (0x40000081 : Nat) &&& (1 <<< 7) ≠ 0 ∧
    (walk mem1g 0 0x12345678).result = .success 0x52345678 0x40000000 := by
  refine ⟨by decide, by decide, ?_⟩
  rw [(walk_1gb_huge_page mem1g 0 0x12345678 0x1001 0x40000081
    (by decide) (by decide) (by decide) (by decide) (by decide)).1]
  decide

/-- The claim's words for the 4 KiB frame base: the PT entry with only
its low 12 bits cleared (all higher bits, including bits 63:48, kept).
Stated from the spec's words, to be compared with the code's mask
`0xFFFFFFFFF000`. -/
def specClearLow12 (e : Nat) : Nat := e - e % 2 ^ 12

/-- C1 (counterexample): a full 4-level walk in which the PT entry is
`2^48 + 1` (present, with bit 48 set).  The code masks the entry with
`0xFFFFFFFFF000`, which also clears bit 48, so the final physical
address is 0; the claim's "frame base (low 12 bits cleared)" would keep
bit 48 and predict `2^48`. -/
theorem walk_4k_counterexample :
    (walk (fun a => if a = 0 then some 0x1001 else if a = 0x1000 then some 0x2001
        else if a = 0x2000 then some 0x3001 else if a = 0x3000 then some (2 ^ 48 + 1)
        else none) 0 0).result = .success 0 0x1000 ∧
    ((specClearLow12 (2 ^ 48 + 1) : Int) + page_offset 0 ≠ (0 : Int)) := by
  constructor
  · decide
  · decide

/-- C1 (amended): for every virtual address and every collaborator
behaviour in which all four entries are read successfully and present
and neither the PDPT nor the PD entry has bit 7 set, the walk visits
exactly four levels, producing exactly 4 trace records, and the final
physical address is `(pt_entry & 0xFFFFFFFFF000) + (vaddr & 0xFFF)` —
the PT entry masked to bits 47:12, i.e. with its low 12 bits and also
bits 63:48 cleared — reported as a 4 KiB page. -/
theorem walk_4k_full (mem : Int → Option Nat) (cr3_val vaddr : Int)
    (e1 e2 e3 e4 : Nat)
    (h1 : mem (pml4_entry_addr cr3_val vaddr) = some e1)
    (hp1 : e1 &&& 0x1 ≠ 0)
    (h2 : mem (pdpt_entry_addr e1 vaddr) = some e2)
    (hp2 : e2 &&& 0x1 ≠ 0)
    (hh2 : e2 &&& (1 <<< 7) = 0)
    (h3 : mem (pd_entry_addr e2 vaddr) = some e3)
    (hp3 : e3 &&& 0x1 ≠ 0)
    (hh3 : e3 &&& (1 <<< 7) = 0)
    (h4 : mem (pt_entry_addr e3 vaddr) = some e4)
    (hp4 : e4 &&& 0x1 ≠ 0) :
    walk mem cr3_val vaddr =
      ⟨[.memRead .PML4 (pml4_entry_addr cr3_val vaddr),
        .memRead .PDPT (pdpt_entry_addr e1 vaddr),
        .memRead .PD (pd_entry_addr e2 vaddr),
        .memRead .PT (pt_entry_addr e3 vaddr)],
       [⟨.PML4, pml4_base cr3_val, pml4_entry_addr cr3_val vaddr, e1⟩,
        ⟨.PDPT, ((e1 &&& 0xFFFFFFFFF000 : Nat) : Int), pdpt_entry_addr e1 vaddr, e2⟩,
        ⟨.PD, ((e2 &&& 0xFFFFFFFFF000 : Nat) : Int), pd_entry_addr e2 vaddr, e3⟩,
        ⟨.PT, ((e3 &&& 0xFFFFFFFFF000 : Nat) : Int), pt_entry_addr e3 vaddr, e4⟩],
       .success (((e4 &&& 0xFFFFFFFFF000 : Nat) : Int) + page_offset vaddr)
         0x1000⟩ ∧
    (walk mem cr3_val vaddr).trace.length = 4 := by
  have hp1' : e1 % 2 ≠ 0 := by simpa [Nat.and_one_is_mod] using hp1
  have hp2' : e2 % 2 ≠ 0 := by simpa [Nat.and_one_is_mod] using hp2
  have hp3' : e3 % 2 ≠ 0 := by simpa [Nat.and_one_is_mod] using hp3
  have hp4' : e4 % 2 ≠ 0 := by simpa [Nat.and_one_is_mod] using hp4
  have hh2' : e2 &&& 128 = 0 := by simpa using hh2
  have hh3' : e3 &&& 128 = 0 := by simpa using hh3
  constructor
  · simp only [walk, h1, h2, h3, h4]
    simp [hp1', hp2', hp3', hp4', hh2', hh3']
  · simp only [walk, h1, h2, h3, h4]
    simp [hp1', hp2', hp3', hp4', hh2', hh3']

/-- A concrete memory for the 4 KiB witness: table chain
0 → 0x1000 → 0x2000 → 0x3000, and a present PT entry `0x5A000 + 1`. -/
def mem4k : Int → Option Nat := fun a =>
  if a = 0 then some 0x1001 else if a = 0x1000 then some 0x2001
  else if a = 0x2000 then some 0x3001 else if a = 0x3000 then some 0x5A001
  else none

/-- Witness for `walk_4k_full`: with vaddr `0xABC` the physical address
is `0x5A000 + 0xABC` and the trace has 4 records. -/
theorem walk_4k_full_witness :
    mem4k (pml4_entry_addr 0 0xABC) = some 0x1001 ∧
    (walk mem4k 0 0xABC).result = .success 0x5AABC 0x1000 ∧
    (walk mem4k 0 0xABC).trace.length = 4 := by
  have h := walk_4k_full mem4k 0 0xABC 0x1001 0x2001 0x3001 0x5A001
    (by decide) (by decide) (by decide) (by decide) (by decide)
    (by decide) (by decide) (by decide) (by decide) (by decide)
  refine ⟨by decide, ?_, h.2⟩
  rw [h.1]
  decide

/-- The claim's words for the 2 MiB frame base: the PD entry masked to
bits 51:21 (low 21 bits cleared, bits 51:48 preserved).  Stated from the
spec's words, to be compared with the code's mask `0xFFFFFFE00000`,
which stops at bit 47. -/
def specMask51_21 (e : Nat) : Nat := e &&& (2 ^ 52 - 2 ^ 21)

/-- C3 (counterexample): a walk reaching a present huge PD entry
`2^48 + 0x81` (present, bit 7, and bit 48 set).  The code masks it with
`0xFFFFFFE00000`, clearing bit 48, so the physical address is 0; the
claim's bits-51:21 mask would keep bit 48 and predict `2^48`. -/
theorem walk_2mb_counterexample :
    (walk (fun a => if a = 0 then some 0x1001 else if a = 0x1000 then some 0x2001
        else if a = 0x2000 then some (2 ^ 48 + 0x81) else none) 0 0).result
      = .success 0 0x200000 ∧
    ((specMask51_21 (2 ^ 48 + 0x81) : Int) + Int.land 0 0x1FFFFF ≠ (0 : Int)) := by
  constructor
  · decide
  · decide

/-- C3 (amended): for every virtual address and every collaborator
behaviour in which the PML4 and PDPT entries are read successfully,
present and non-huge and the PD entry is read successfully with bit 0
and bit 7 both set, the walk terminates with a 2 MiB page whose physical
address is `(pd_entry & 0xFFFFFFE00000) + (vaddr & 0x1FFFFF)` — the PD
entry masked to bits 47:21, i.e. with its low 21 bits and also bits
63:48 cleared — and the PT level is never read. -/
theorem walk_2mb_huge_page (mem : Int → Option Nat) (cr3_val vaddr : Int)
    (e1 e2 e3 : Nat)
    (h1 : mem (pml4_entry_addr cr3_val vaddr) = some e1)
    (hp1 : e1 &&& 0x1 ≠ 0)
    (h2 : mem (pdpt_entry_addr e1 vaddr) = some e2)
    (hp2 : e2 &&& 0x1 ≠ 0)
    (hh2 : e2 &&& (1 <<< 7) = 0)
    (h3 : mem (pd_entry_addr e2 vaddr) = some e3)
    (hp3 : e3 &&& 0x1 ≠ 0)
    (hh3 : e3 &&& (1 <<< 7) ≠ 0) :
    walk mem cr3_val vaddr =
      ⟨[.memRead .PML4 (pml4_entry_addr cr3_val vaddr),
        .memRead .PDPT (pdpt_entry_addr e1 vaddr),
        .memRead .PD (pd_entry_addr e2 vaddr)],
       [⟨.PML4, pml4_base cr3_val, pml4_entry_addr cr3_val vaddr, e1⟩,
        ⟨.PDPT, ((e1 &&& 0xFFFFFFFFF000 : Nat) : Int), pdpt_entry_addr e1 vaddr, e2⟩,
        ⟨.PD, ((e2 &&& 0xFFFFFFFFF000 : Nat) : Int), pd_entry_addr e2 vaddr, e3⟩],
       .success (((e3 &&& 0xFFFFFFE00000 : Nat) : Int) + Int.land vaddr 0x1FFFFF)
         0x200000⟩ ∧
    (∀ a : Int, Event.memRead .PT a ∉ (walk mem cr3_val vaddr).events) := by
  have hp1' : e1 % 2 ≠ 0 := by simpa [Nat.and_one_is_mod] using hp1
  have hp2' : e2 % 2 ≠ 0 := by simpa [Nat.and_one_is_mod] using hp2
  have hp3' : e3 % 2 ≠ 0 := by simpa [Nat.and_one_is_mod] using hp3
  have hh2' : e2 &&& 128 = 0 := by simpa using hh2
  have hh3' : e3 &&& 128 ≠ 0 := by simpa using hh3
  have hmain : walk mem cr3_val vaddr =
      ⟨[.memRead .PML4 (pml4_entry_addr cr3_val vaddr),
        .memRead .PDPT (pdpt_entry_addr e1 vaddr),
        .memRead .PD (pd_entry_addr e2 vaddr)],
       [⟨.PML4, pml4_base cr3_val, pml4_entry_addr cr3_val vaddr, e1⟩,
        ⟨.PDPT, ((e1 &&& 0xFFFFFFFFF000 : Nat) : Int), pdpt_entry_addr e1 vaddr, e2⟩,
        ⟨.PD, ((e2 &&& 0xFFFFFFFFF000 : Nat) : Int), pd_entry_addr e2 vaddr, e3⟩],
       .success (((e3 &&& 0xFFFFFFE00000 : Nat) : Int) + Int.land vaddr 0x1FFFFF)
         0x200000⟩ := by
    simp only [walk, h1, h2, h3]
    simp [hp1', hp2', hp3', hh2', hh3']
  refine ⟨hmain, ?_⟩
  intro a
  rw [hmain]
  simp

/-- A concrete memory for the 2 MiB witness: chain 0 → 0x1000 → 0x2000,
with a present huge PD entry based at 0x200000. -/
def mem2m : Int → Option Nat := fun a =>
  if a = 0 then some 0x1001 else if a = 0x1000 then some 0x2001
  else if a = 0x2000 then some 0x200081 else none

/-- Witness for `walk_2mb_huge_page`: with vaddr `0x1ABC` the physical
address is `0x200000 + 0x1ABC`. -/
theorem walk_2mb_huge_page_witness :
    mem2m (pd_entry_addr 0x2001 0x1ABC) = some 0x200081 ∧
    (0x200081 : Nat) &&& (1 <<< 7) ≠ 0 ∧
    (walk mem2m 0 0x1ABC).result = .success 0x201ABC 0x200000 := by
  refine ⟨by decide, by decide, ?_⟩
  rw [(walk_2mb_huge_page mem2m 0 0x1ABC 0x1001 0x2001 0x200081
    (by decide) (by decide) (by decide) (by decide) (by decide)
    (by decide) (by decide) (by decide)).1]
  decide

/-- C6: for every level L and every collaborator behaviour in which the
entry read at level L has bit 0 clear, after present (and, where the
code checks it, non-huge) entries at all earlier levels, the walk aborts
with `absentAt L`, the trace contains exactly one record per level
visited up to and including L, and no level after L is read.  Stated as
one conjunct per level; the full output is pinned in each case, so the
trace contents and the absence of later reads are both forced. -/
theorem walk_absent_abort :
    (∀ (mem : Int → Option Nat) (cr3_val vaddr : Int) (e1 : Nat),
      mem (pml4_entry_addr cr3_val vaddr) = some e1 → e1 &&& 0x1 = 0 →
      walk mem cr3_val vaddr =
        ⟨[.memRead .PML4 (pml4_entry_addr cr3_val vaddr)],
         [⟨.PML4, pml4_base cr3_val, pml4_entry_addr cr3_val vaddr, e1⟩],
         .absentAt .PML4⟩) ∧
    (∀ (mem : Int → Option Nat) (cr3_val vaddr : Int) (e1 e2 : Nat),
      mem (pml4_entry_addr cr3_val vaddr) = some e1 → e1 &&& 0x1 ≠ 0 →
      mem (pdpt_entry_addr e1 vaddr) = some e2 → e2 &&& 0x1 = 0 →
      walk mem cr3_val vaddr =
        ⟨[.memRead .PML4 (pml4_entry_addr cr3_val vaddr),
          .memRead .PDPT (pdpt_entry_addr e1 vaddr)],
         [⟨.PML4, pml4_base cr3_val, pml4_entry_addr cr3_val vaddr, e1⟩,
          ⟨.PDPT, ((e1 &&& 0xFFFFFFFFF000 : Nat) : Int), pdpt_entry_addr e1 vaddr, e2⟩],
         .absentAt .PDPT⟩) ∧
    (∀ (mem : Int → Option Nat) (cr3_val vaddr : Int) (e1 e2 e3 : Nat),
      mem (pml4_entry_addr cr3_val vaddr) = some e1 → e1 &&& 0x1 ≠ 0 →
      mem (pdpt_entry_addr e1 vaddr) = some e2 → e2 &&& 0x1 ≠ 0 →
      e2 &&& (1 <<< 7) = 0 →
      mem (pd_entry_addr e2 vaddr) = some e3 → e3 &&& 0x1 = 0 →
      walk mem cr3_val vaddr =
        ⟨[.memRead .PML4 (pml4_entry_addr cr3_val vaddr),
          .memRead .PDPT (pdpt_entry_addr e1 vaddr),
          .memRead .PD (pd_entry_addr e2 vaddr)],
         [⟨.PML4, pml4_base cr3_val, pml4_entry_addr cr3_val vaddr, e1⟩,
          ⟨.PDPT, ((e1 &&& 0xFFFFFFFFF000 : Nat) : Int), pdpt_entry_addr e1 vaddr, e2⟩,
          ⟨.PD, ((e2 &&& 0xFFFFFFFFF000 : Nat) : Int), pd_entry_addr e2 vaddr, e3⟩],
         .absentAt .PD⟩) ∧
    (∀ (mem : Int → Option Nat) (cr3_val vaddr : Int) (e1 e2 e3 e4 : Nat),
      mem (pml4_entry_addr cr3_val vaddr) = some e1 → e1 &&& 0x1 ≠ 0 →
      mem (pdpt_entry_addr e1 vaddr) = some e2 → e2 &&& 0x1 ≠ 0 →
      e2 &&& (1 <<< 7) = 0 →
      mem (pd_entry_addr e2 vaddr) = some e3 → e3 &&& 0x1 ≠ 0 →
      e3 &&& (1 <<< 7) = 0 →
      mem (pt_entry_addr e3 vaddr) = some e4 → e4 &&& 0x1 = 0 →
      walk mem cr3_val vaddr =
        ⟨[.memRead .PML4 (pml4_entry_addr cr3_val vaddr),
          .memRead .PDPT (pdpt_entry_addr e1 vaddr),
          .memRead .PD (pd_entry_addr e2 vaddr),
          .memRead .PT (pt_entry_addr e3 vaddr)],
         [⟨.PML4, pml4_base cr3_val, pml4_entry_addr cr3_val vaddr, e1⟩,
          ⟨.PDPT, ((e1 &&& 0xFFFFFFFFF000 : Nat) : Int), pdpt_entry_addr e1 vaddr, e2⟩,
          ⟨.PD, ((e2 &&& 0xFFFFFFFFF000 : Nat) : Int), pd_entry_addr e2 vaddr, e3⟩,
          ⟨.PT, ((e3 &&& 0xFFFFFFFFF000 : Nat) : Int), pt_entry_addr e3 vaddr, e4⟩],
         .absentAt .PT⟩) := by
  refine ⟨?_, ?_, ?_, ?_⟩
  · intro mem cr3_val vaddr e1 h1 hp1
    have hp1' : e1 % 2 = 0 := by simpa [Nat.and_one_is_mod] using hp1
    simp only [walk, h1]
    simp [hp1']
  · intro mem cr3_val vaddr e1 e2 h1 hp1 h2 hp2
    have hp1' : e1 % 2 ≠ 0 := by simpa [Nat.and_one_is_mod] using hp1
    have hp2' : e2 % 2 = 0 := by simpa [Nat.and_one_is_mod] using hp2
    simp only [walk, h1, h2]
    simp [hp1', hp2']
  · intro mem cr3_val vaddr e1 e2 e3 h1 hp1 h2 hp2 hh2 h3 hp3
    have hp1' : e1 % 2 ≠ 0 := by simpa [Nat.and_one_is_mod] using hp1
    have hp2' : e2 % 2 ≠ 0 := by simpa [Nat.and_one_is_mod] using hp2
    have hh2' : e2 &&& 128 = 0 := by simpa using hh2
    have hp3' : e3 % 2 = 0 := by simpa [Nat.and_one_is_mod] using hp3
    simp only [walk, h1, h2, h3]
    simp [hp1', hp2', hh2', hp3']
  · intro mem cr3_val vaddr e1 e2 e3 e4 h1 hp1 h2 hp2 hh2 h3 hp3 hh3 h4 hp4
    have hp1' : e1 % 2 ≠ 0 := by simpa [Nat.and_one_is_mod] using hp1
    have hp2' : e2 % 2 ≠ 0 := by simpa [Nat.and_one_is_mod] using hp2
    have hh2' : e2 &&& 128 = 0 := by simpa using hh2
    have hp3' : e3 % 2 ≠ 0 := by simpa [Nat.and_one_is_mod] using hp3
    have hh3' : e3 &&& 128 = 0 := by simpa using hh3
    have hp4' : e4 % 2 = 0 := by simpa [Nat.and_one_is_mod] using hp4
    simp only [walk, h1, h2, h3, h4]
    simp [hp1', hp2', hh2', hp3', hh3', hp4']

/-- A concrete memory for the absent-PD witness: chain 0 → 0x1000 →
0x2000, where the PD entry `0x4242` has bit 0 clear. -/
def memAbsentPD : Int → Option Nat := fun a =>
  if a = 0 then some 0x1001 else if a = 0x1000 then some 0x2001
  else if a = 0x2000 then some 0x4242 else none

/-- Witness for `walk_absent_abort`, at the spec's own example level PD:
the walk aborts with `absentAt PD`, the trace has exactly 3 records, and
the PT level is never read. -/
theorem walk_absent_abort_witness :
    memAbsentPD (pd_entry_addr 0x2001 0) = some 0x4242 ∧
    (0x4242 : Nat) &&& 0x1 = 0 ∧
    (walk memAbsentPD 0 0).result = .absentAt .PD ∧
    (walk memAbsentPD 0 0).trace.length = 3 ∧
    (walk memAbsentPD 0 0).events =
      [.memRead .PML4 0, .memRead .PDPT 0x1000, .memRead .PD 0x2000] := by
  have h := walk_absent_abort.2.2.1 memAbsentPD 0 0 0x1001 0x2001 0x4242
    (by decide) (by decide) (by decide) (by decide) (by decide) (by decide)
    (by decide)
  refine ⟨by decide, by decide, ?_, ?_, ?_⟩ <;> rw [h] <;> decide

/-- The paging index the code uses for each level's entry address. -/
def levelIndex : Level → Int → Int
  | .PML4 => pml4_index
  | .PDPT => pdpt_index
  | .PD => pd_index
  | .PT => pt_index

/-- The claim's words for table-base masking: bits 51:12 of the
preceding value, preserving bits 51:48.  Stated from the spec's words,
to be compared with the code's mask `0xFFFFFFFFF000`, which stops at
bit 47. -/
def specMask51_12 (x : Int) : Int := Int.land x (2 ^ 52 - 2 ^ 12)

/-- C4 (counterexample): with table-base register value `2^48`, the code
computes the initial PML4 base as `2^48 & 0xFFFFFFFFF000 = 0` (the trace
records table base 0 and the entry is read at address 0), whereas the
claim's bits-51:12 mask would preserve bit 48 and give `2^48 ≠ 0`. -/
theorem table_base_counterexample :
    (walk (fun _ => some 0) (2 ^ 48) 0).trace =
      [⟨.PML4, 0, 0, 0⟩] ∧
    (walk (fun _ => some 0) (2 ^ 48) 0).events = [.memRead .PML4 0] ∧
    specMask51_12 (2 ^ 48) ≠ 0 := by
  refine ⟨by decide, by decide, by decide⟩

/-- C4 (amended): every table-base address used to compute an entry
address is the preceding 64-bit value masked with `0xFFFFFFFFF000`
(bits 47:12: low 12 bits cleared and bits 63:48 cleared as well): the
first read is at `(cr3 & 0xFFFFFFFFF000) + pml4_index*8`, the first
trace record's table base is `cr3 & 0xFFFFFFFFF000`, each later record's
table base is the previous record's raw entry masked with
`0xFFFFFFFFF000`, and every record's entry address is its table base
plus its level's index times 8. -/
theorem table_base_chain (mem : Int → Option Nat) (cr3_val vaddr : Int) :
    (walk mem cr3_val vaddr).events.head? =
      some (.memRead .PML4 (pml4_entry_addr cr3_val vaddr)) ∧
    (∀ r, (walk mem cr3_val vaddr).trace.head? = some r →
      r.tableBase = Int.land cr3_val 0xFFFFFFFFF000) ∧
    List.Chain' (fun r r' => r'.tableBase = ((r.rawEntry &&& 0xFFFFFFFFF000 : Nat) : Int))
      (walk mem cr3_val vaddr).trace ∧
    (∀ r ∈ (walk mem cr3_val vaddr).trace,
      r.entryAddr = r.tableBase + levelIndex r.level vaddr * 8) := by
  cases h1 : mem (pml4_entry_addr cr3_val vaddr) with
  | none =>
    simp only [walk, h1]
    simp [pml4_entry_addr, pml4_base, levelIndex]
  | some e1 =>
    by_cases p1 : e1 % 2 = 0
    · simp only [walk, h1]
      simp [p1, pml4_entry_addr, pml4_base, levelIndex]
    · cases h2 : mem (pdpt_entry_addr e1 vaddr) with
      | none =>
        simp only [walk, h1, h2]
        simp [p1, pml4_entry_addr, pdpt_entry_addr, pml4_base, levelIndex]
      | some e2 =>
        by_cases p2 : e2 % 2 = 0
        · simp only [walk, h1, h2]
          simp [p1, p2, pml4_entry_addr, pdpt_entry_addr, pml4_base, levelIndex]
        · by_cases q2 : e2 &&& 128 = 0
          · cases h3 : mem (pd_entry_addr e2 vaddr) with
            | none =>
              simp only [walk, h1, h2, h3]
              simp [p1, p2, q2, pml4_entry_addr, pdpt_entry_addr, pd_entry_addr,
                pml4_base, levelIndex]
            | some e3 =>
              by_cases p3 : e3 % 2 = 0
              · simp only [walk, h1, h2, h3]
                simp [p1, p2, q2, p3, pml4_entry_addr, pdpt_entry_addr, pd_entry_addr,
                  pml4_base, levelIndex]
              · by_cases q3 : e3 &&& 128 = 0
                · cases h4 : mem (pt_entry_addr e3 vaddr) with
                  | none =>
                    simp only [walk, h1, h2, h3, h4]
                    simp [p1, p2, q2, p3, q3, pml4_entry_addr, pdpt_entry_addr,
                      pd_entry_addr, pt_entry_addr, pml4_base, levelIndex]
                  | some e4 =>
                    by_cases p4 : e4 % 2 = 0 <;>
                    · simp only [walk, h1, h2, h3, h4]
                      simp [p1, p2, q2, p3, q3, p4, pml4_entry_addr, pdpt_entry_addr,
                        pd_entry_addr, pt_entry_addr, pml4_base, levelIndex]
                · simp only [walk, h1, h2, h3]
                  simp [p1, p2, q2, p3, q3, pml4_entry_addr, pdpt_entry_addr,
                    pd_entry_addr, pml4_base, levelIndex]
          · simp only [walk, h1, h2]
            simp [p1, p2, q2, pml4_entry_addr, pdpt_entry_addr, pml4_base, levelIndex]

/-- Witness for `table_base_chain` at a concrete input (the memory of
the 4 KiB witness, which produces a full 4-record trace). -/
theorem table_base_chain_witness :
    (walk mem4k 0 0).events.head? =
      some (.memRead .PML4 (pml4_entry_addr 0 0)) ∧
    List.Chain' (fun r r' => r'.tableBase = ((r.rawEntry &&& 0xFFFFFFFFF000 : Nat) : Int))
      (walk mem4k 0 0).trace ∧
    (walk mem4k 0 0).trace.length = 4 := by
  have h := table_base_chain mem4k 0 0
  exact ⟨h.1, h.2.2.1, by decide⟩

/-!
### Cast helpers

On nonnegative integers the `Int` bitwise operations used by the
embedding agree definitionally with the `Nat` ones.
-/

theorem int_land_ofNat (m n : Nat) :
    Int.land (m : Int) (n : Int) = ((m &&& n : Nat) : Int) := rfl

theorem int_lor_ofNat (m n : Nat) :
    Int.lor (m : Int) (n : Int) = ((m ||| n : Nat) : Int) := rfl

theorem int_shiftRight_ofNat (m k : Nat) :
    Int.shiftRight (m : Int) k = ((m >>> k : Nat) : Int) := rfl

theorem pml4_index_ofNat (n : Nat) :
    pml4_index (n : Int) = (((n >>> 39) &&& 0x1FF : Nat) : Int) := rfl

theorem pdpt_index_ofNat (n : Nat) :
    pdpt_index (n : Int) = (((n >>> 30) &&& 0x1FF : Nat) : Int) := rfl

theorem pd_index_ofNat (n : Nat) :
    pd_index (n : Int) = (((n >>> 21) &&& 0x1FF : Nat) : Int) := rfl

theorem pt_index_ofNat (n : Nat) :
    pt_index (n : Int) = (((n >>> 12) &&& 0x1FF : Nat) : Int) := rfl

theorem page_offset_ofNat (n : Nat) :
    page_offset (n : Int) = ((n &&& 0xFFF : Nat) : Int) := rfl

/-- Reassembling the five decoded fields of a natural number recovers
its low 48 bits. -/
theorem decode_reassemble_nat (n : Nat) :
    ((((n >>> 39) &&& 0x1FF) <<< 39 |||
      ((n >>> 30) &&& 0x1FF) <<< 30 |||
      ((n >>> 21) &&& 0x1FF) <<< 21 |||
      ((n >>> 12) &&& 0x1FF) <<< 12 |||
      (n &&& 0xFFF)) : Nat) = n % 2 ^ 48 := by
  apply Nat.eq_of_testBit_eq
  intro i
  have h9 : (0x1FF : Nat) = 2 ^ 9 - 1 := by norm_num
  have h12 : (0xFFF : Nat) = 2 ^ 12 - 1 := by norm_num
  rw [h9, h12]
  simp only [Nat.testBit_or, Nat.testBit_and, Nat.testBit_shiftLeft,
    Nat.testBit_shiftRight, Nat.testBit_two_pow_sub_one, Nat.testBit_mod_two_pow,
    ge_iff_le]
  by_cases c1 : i < 12
  · simp [show ¬ 39 ≤ i by omega, show ¬ 30 ≤ i by omega, show ¬ 21 ≤ i by omega,
      show ¬ 12 ≤ i by omega, show i < 12 by omega, show i < 48 by omega]
  by_cases c2 : i < 21
  · simp [show ¬ 39 ≤ i by omega, show ¬ 30 ≤ i by omega, show ¬ 21 ≤ i by omega,
      show 12 ≤ i by omega, show i - 12 < 9 by omega, show 12 + (i - 12) = i by omega,
      show ¬ i < 12 by omega, show i < 48 by omega]
  by_cases c3 : i < 30
  · simp [show ¬ 39 ≤ i by omega, show ¬ 30 ≤ i by omega, show 21 ≤ i by omega,
      show i - 21 < 9 by omega, show 21 + (i - 21) = i by omega,
      show ¬ i - 12 < 9 by omega, show ¬ i < 12 by omega, show i < 48 by omega,
      show 12 ≤ i by omega]
  by_cases c4 : i < 39
  · simp [show ¬ 39 ≤ i by omega, show 30 ≤ i by omega, show i - 30 < 9 by omega,
      show 30 + (i - 30) = i by omega, show ¬ i - 21 < 9 by omega,
      show ¬ i - 12 < 9 by omega, show ¬ i < 12 by omega, show i < 48 by omega,
      show 21 ≤ i by omega, show 12 ≤ i by omega]
  by_cases c5 : i < 48
  · simp [show 39 ≤ i by omega, show i - 39 < 9 by omega,
      show 39 + (i - 39) = i by omega, show ¬ i - 30 < 9 by omega,
      show ¬ i - 21 < 9 by omega, show ¬ i - 12 < 9 by omega, show ¬ i < 12 by omega,
      show i < 48 by omega, show 30 ≤ i by omega, show 21 ≤ i by omega,
      show 12 ≤ i by omega]
  · simp [show ¬ i - 39 < 9 by omega, show ¬ i - 30 < 9 by omega,
      show ¬ i - 21 < 9 by omega, show ¬ i - 12 < 9 by omega, show ¬ i < 12 by omega,
      show ¬ i < 48 by omega]

/-- C5: for every 64-bit virtual address, the decoder computes the four
9-bit indices and the 12-bit offset, and reassembling
`pml4<<39 | pdpt<<30 | pd<<21 | pt<<12 | offset` reproduces exactly the
low 48 bits of the input address. -/
theorem decode_reassemble (n : Nat) (h : n < 2 ^ 64) :
    Int.lor (Int.lor (Int.lor (Int.lor
      (pml4_index (n : Int) <<< (39 : Int))
      (pdpt_index (n : Int) <<< (30 : Int)))
      (pd_index (n : Int) <<< (21 : Int)))
      (pt_index (n : Int) <<< (12 : Int)))
      (page_offset (n : Int)) = ((n % 2 ^ 48 : Nat) : Int) := by
  have e1 : pml4_index (n : Int) <<< (39 : Int) =
      ((((n >>> 39) &&& 0x1FF) <<< 39 : Nat) : Int) := by
    rw [pml4_index_ofNat]; exact Int.shiftLeft_coe_nat _ 39
  have e2 : pdpt_index (n : Int) <<< (30 : Int) =
      ((((n >>> 30) &&& 0x1FF) <<< 30 : Nat) : Int) := by
    rw [pdpt_index_ofNat]; exact Int.shiftLeft_coe_nat _ 30
  have e3 : pd_index (n : Int) <<< (21 : Int) =
      ((((n >>> 21) &&& 0x1FF) <<< 21 : Nat) : Int) := by
    rw [pd_index_ofNat]; exact Int.shiftLeft_coe_nat _ 21
  have e4 : pt_index (n : Int) <<< (12 : Int) =
      ((((n >>> 12) &&& 0x1FF) <<< 12 : Nat) : Int) := by
    rw [pt_index_ofNat]; exact Int.shiftLeft_coe_nat _ 12
  rw [e1, e2, e3, e4, page_offset_ofNat, int_lor_ofNat, int_lor_ofNat,
    int_lor_ofNat, int_lor_ofNat]
  exact congrArg (fun m : Nat => (m : Int)) (decode_reassemble_nat n)

/-- Witness for `decode_reassemble` at the spec's own example address
`0x7FFFFFFFF000`. -/
theorem decode_reassemble_witness :
    (0x7FFFFFFFF000 : Nat) < 2 ^ 64 ∧
    Int.lor (Int.lor (Int.lor (Int.lor
      (pml4_index ((0x7FFFFFFFF000 : Nat) : Int) <<< (39 : Int))
      (pdpt_index ((0x7FFFFFFFF000 : Nat) : Int) <<< (30 : Int)))
      (pd_index ((0x7FFFFFFFF000 : Nat) : Int) <<< (21 : Int)))
      (pt_index ((0x7FFFFFFFF000 : Nat) : Int) <<< (12 : Int)))
      (page_offset ((0x7FFFFFFFF000 : Nat) : Int)) =
      (((0x7FFFFFFFF000 : Nat) % 2 ^ 48 : Nat) : Int) :=
  ⟨by norm_num, decode_reassemble 0x7FFFFFFFF000 (by norm_num)⟩

/-- A 9-bit field extracted at shift `s` with `s + 9 ≤ 48` depends only
on the low 48 bits. -/
theorem nat_shift_idx_eq (s : Nat) (hs : s + 9 ≤ 48) (v1 v2 : Nat)
    (h : v1 % 2 ^ 48 = v2 % 2 ^ 48) :
    (v1 >>> s) &&& 0x1FF = (v2 >>> s) &&& 0x1FF := by
  rw [show (0x1FF : Nat) = 2 ^ 9 - 1 by norm_num,
    Nat.and_pow_two_sub_one_eq_mod, Nat.and_pow_two_sub_one_eq_mod,
    Nat.shiftRight_eq_div_pow, Nat.shiftRight_eq_div_pow,
    ← Nat.mod_mul_right_div_self, ← Nat.mod_mul_right_div_self]
  have hd : (2 : Nat) ^ s * 2 ^ 9 ∣ 2 ^ 48 := by
    rw [← pow_add]; exact pow_dvd_pow 2 hs
  rw [← Nat.mod_mod_of_dvd v1 hd, ← Nat.mod_mod_of_dvd v2 hd, h]

/-- A low `k`-bit mask with `k ≤ 48` depends only on the low 48 bits. -/
theorem nat_low_mask_eq (k : Nat) (hk : k ≤ 48) (v1 v2 : Nat)
    (h : v1 % 2 ^ 48 = v2 % 2 ^ 48) :
    v1 &&& (2 ^ k - 1) = v2 &&& (2 ^ k - 1) := by
  rw [Nat.and_pow_two_sub_one_eq_mod, Nat.and_pow_two_sub_one_eq_mod,
    ← Nat.mod_mod_of_dvd v1 (pow_dvd_pow 2 hk),
    ← Nat.mod_mod_of_dvd v2 (pow_dvd_pow 2 hk), h]

/-- The walk consumes the virtual address only through the four indices,
the page offset and the two huge-page offset masks. -/
theorem walk_vaddr_congr (mem : Int → Option Nat) (cr3_val : Int) (u v : Int)
    (h1 : pml4_index u = pml4_index v) (h2 : pdpt_index u = pdpt_index v)
    (h3 : pd_index u = pd_index v) (h4 : pt_index u = pt_index v)
    (h5 : page_offset u = page_offset v)
    (h6 : Int.land u 0x3FFFFFFF = Int.land v 0x3FFFFFFF)
    (h7 : Int.land u 0x1FFFFF = Int.land v 0x1FFFFF) :
    walk mem cr3_val u = walk mem cr3_val v := by
  simp only [walk, pml4_entry_addr, pdpt_entry_addr, pd_entry_addr, pt_entry_addr,
    h1, h2, h3, h4, h5, h6, h7]

/-- C9: non-canonical virtual addresses are never rejected and bits
63:48 are simply ignored — two 64-bit virtual addresses that agree on
bits 47:0 yield the same indices and, under identical collaborator
responses, the identical walk output (same reads, same trace, same
result). -/
theorem high_bits_ignored (mem : Int → Option Nat) (cr3_val : Int) (v1 v2 : Nat)
    (hw1 : v1 < 2 ^ 64) (hw2 : v2 < 2 ^ 64) (h : v1 % 2 ^ 48 = v2 % 2 ^ 48) :
    pml4_index (v1 : Int) = pml4_index (v2 : Int) ∧
    pdpt_index (v1 : Int) = pdpt_index (v2 : Int) ∧
    pd_index (v1 : Int) = pd_index (v2 : Int) ∧
    pt_index (v1 : Int) = pt_index (v2 : Int) ∧
    page_offset (v1 : Int) = page_offset (v2 : Int) ∧
    walk mem cr3_val (v1 : Int) = walk mem cr3_val (v2 : Int) := by
  have g1 : pml4_index (v1 : Int) = pml4_index (v2 : Int) := by
    rw [pml4_index_ofNat, pml4_index_ofNat, nat_shift_idx_eq 39 (by norm_num) v1 v2 h]
  have g2 : pdpt_index (v1 : Int) = pdpt_index (v2 : Int) := by
    rw [pdpt_index_ofNat, pdpt_index_ofNat, nat_shift_idx_eq 30 (by norm_num) v1 v2 h]
  have g3 : pd_index (v1 : Int) = pd_index (v2 : Int) := by
    rw [pd_index_ofNat, pd_index_ofNat, nat_shift_idx_eq 21 (by norm_num) v1 v2 h]
  have g4 : pt_index (v1 : Int) = pt_index (v2 : Int) := by
    rw [pt_index_ofNat, pt_index_ofNat, nat_shift_idx_eq 12 (by norm_num) v1 v2 h]
  have g5 : page_offset (v1 : Int) = page_offset (v2 : Int) := by
    rw [page_offset_ofNat, page_offset_ofNat]
    have hm := nat_low_mask_eq 12 (by norm_num) v1 v2 h
    rw [show ((2 : Nat) ^ 12 - 1) = 0xFFF by norm_num] at hm
    rw [hm]
  have g6 : Int.land (v1 : Int) 0x3FFFFFFF = Int.land (v2 : Int) 0x3FFFFFFF := by
    rw [show ((0x3FFFFFFF : Int)) = ((0x3FFFFFFF : Nat) : Int) from rfl,
      int_land_ofNat, int_land_ofNat]
    have hm := nat_low_mask_eq 30 (by norm_num) v1 v2 h
    rw [show ((2 : Nat) ^ 30 - 1) = 0x3FFFFFFF by norm_num] at hm
    rw [hm]
  have g7 : Int.land (v1 : Int) 0x1FFFFF = Int.land (v2 : Int) 0x1FFFFF := by
    rw [show ((0x1FFFFF : Int)) = ((0x1FFFFF : Nat) : Int) from rfl,
      int_land_ofNat, int_land_ofNat]
    have hm := nat_low_mask_eq 21 (by norm_num) v1 v2 h
    rw [show ((2 : Nat) ^ 21 - 1) = 0x1FFFFF by norm_num] at hm
    rw [hm]
  exact ⟨g1, g2, g3, g4, g5, walk_vaddr_congr mem cr3_val _ _ g1 g2 g3 g4 g5 g6 g7⟩

/-- Witness for `high_bits_ignored`: `0xABC` and `2^63 + 0xABC` (a
non-canonical address) agree on bits 47:0 and walk identically. -/
theorem high_bits_ignored_witness :
    (0xABC : Nat) < 2 ^ 64 ∧ (2 ^ 63 + 0xABC : Nat) < 2 ^ 64 ∧
    (0xABC : Nat) % 2 ^ 48 = (2 ^ 63 + 0xABC : Nat) % 2 ^ 48 ∧
    walk mem4k 0 ((0xABC : Nat) : Int) = walk mem4k 0 ((2 ^ 63 + 0xABC : Nat) : Int) :=
  ⟨by norm_num, by norm_num, by norm_num,
    (high_bits_ignored mem4k 0 0xABC (2 ^ 63 + 0xABC) (by norm_num) (by norm_num)
      (by norm_num)).2.2.2.2.2⟩

/-- The spec's words "a hexadecimal (0x-prefixed) textual
representation": the literal characters `0x` followed by at least one
hexadecimal digit. -/
def specHexForm (s : String) : Bool :=
  match s.toList with
  | '0' :: 'x' :: cs => !cs.isEmpty && cs.all (fun c => (hexDV c).isSome)
  | _ => false

/-- The spec's words "a decimal textual representation": an optional
sign followed by at least one decimal digit. -/
def specDecForm (s : String) : Bool :=
  let cs := match s.toList with
    | '+' :: rest => rest
    | '-' :: rest => rest
    | rest => rest
  !cs.isEmpty && cs.all (fun c => (decDV c).isSome)

/-- Concrete behaviours of the `int(arg, 0)` model beyond ASCII,
matching CPython: Eastern Arabic digits, a no-break space before an
ASCII digit, a fullwidth zero (also as a base marker's leading zero),
and a non-digit non-space character ≥ 128 rejecting the parse. -/
theorem pyParseInt0_unicode_examples :
    pyParseInt0 "٥" = some 5 ∧
    pyParseInt0 "١٢٣" = some 123 ∧
    pyParseInt0 "\xA05" = some 5 ∧
    pyParseInt0 "０" = some 0 ∧
    pyParseInt0 "０x1F" = some 31 ∧
    pyParseInt0 "€5" = none := by decide

/-- C7 (counterexample): `"0b101"` is neither a 0x-prefixed hexadecimal
nor a decimal representation, yet `int(arg, 0)` parses it (binary form),
so the translator does not fail with `invalidAddress` and goes on to
read the register. -/
theorem parse_forms_counterexample :
    specHexForm "0b101" = false ∧ specDecForm "0b101" = false ∧
    pyParseInt0 "0b101" = some 5 ∧
    (ptwalk (fun _ => none) (some 0) "0b101").result ≠ TransResult.invalidAddress ∧
    Event.regRead ∈ (ptwalk (fun _ => none) (some 0) "0b101").events := by
  refine ⟨by decide, by decide, by decide, by decide, by decide⟩

/-- C7 (amended): the translator parses its argument with Python's
`int(arg, 0)`, which accepts hexadecimal (`0x`), decimal, and also
binary (`0b`) and octal (`0o`) representations with optional sign,
underscore grouping and surrounding whitespace; for every argument
string that parses in none of those forms it fails with
`invalidAddress`, making no register read and no memory read (the only
collaborator calls of the whole invocation are the two addressing-mode
toggles). -/
theorem parse_failure_no_reads (mem : Int → Option Nat) (cr3 : Option Int)
    (s : String) (h : pyParseInt0 s = none) :
    ptwalk mem cr3 s = ⟨[], [], .invalidAddress⟩ ∧
    invoke mem cr3 s = ⟨[.modeSet true, .modeSet false], [], .invalidAddress⟩ := by
  constructor
  · simp [ptwalk, h]
  · simp [invoke, ptwalk, h]

/-- Witness for `parse_failure_no_reads` at the spec's own example
argument `"not_a_number"`. -/
theorem parse_failure_no_reads_witness :
    pyParseInt0 "not_a_number" = none ∧
    ptwalk (fun _ => some 0) (some 0) "not_a_number" =
      ⟨[], [], TransResult.invalidAddress⟩ :=
  ⟨by decide,
    (parse_failure_no_reads (fun _ => some 0) (some 0) "not_a_number" (by decide)).1⟩

/-- No collaborator call of the walk proper is a mode toggle or a
register read: they are all memory reads. -/
theorem walk_no_modeSet (mem : Int → Option Nat) (cr3_val vaddr : Int) (b : Bool) :
    Event.modeSet b ∉ (walk mem cr3_val vaddr).events ∧
    Event.regRead ∉ (walk mem cr3_val vaddr).events := by
  cases h1 : mem (pml4_entry_addr cr3_val vaddr) with
  | none => simp [walk, h1]
  | some e1 =>
    cases h2 : mem (pdpt_entry_addr e1 vaddr) with
    | none =>
      simp only [walk, h1, h2]
      split_ifs <;> simp
    | some e2 =>
      cases h3 : mem (pd_entry_addr e2 vaddr) with
      | none =>
        simp only [walk, h1, h2, h3]
        split_ifs <;> simp
      | some e3 =>
        cases h4 : mem (pt_entry_addr e3 vaddr) with
        | none =>
          simp only [walk, h1, h2, h3, h4]
          split_ifs <;> simp
        | some e4 =>
          simp only [walk, h1, h2, h3, h4]
          split_ifs <;> simp

/-- The body of the command never toggles the addressing mode itself. -/
theorem ptwalk_no_modeSet (mem : Int → Option Nat) (cr3 : Option Int) (arg : String)
    (b : Bool) : Event.modeSet b ∉ (ptwalk mem cr3 arg).events := by
  cases hp : pyParseInt0 arg with
  | none => simp [ptwalk, hp]
  | some v =>
    cases cr3 with
    | none => simp [ptwalk, hp]
    | some c =>
      simp only [ptwalk, hp]
      simp [(walk_no_modeSet mem c v b).1]

/-- C8: for every argument and every collaborator behaviour, the
physical-addressing-mode collaborator is invoked with `enabled = true`
exactly once, as the very first collaborator call (hence before any
register or memory read), and with `enabled = false` exactly once, as
the very last collaborator call before the invocation returns — on
every exit path: success, invalid argument, register failure, read
failure, or absent entry at any level. -/
theorem mode_scoped (mem : Int → Option Nat) (cr3 : Option Int) (arg : String) :
    (invoke mem cr3 arg).events.head? = some (.modeSet true) ∧
    (invoke mem cr3 arg).events.getLast? = some (.modeSet false) ∧
    (invoke mem cr3 arg).events.count (.modeSet true) = 1 ∧
    (invoke mem cr3 arg).events.count (.modeSet false) = 1 ∧
    (∀ b : Bool, Event.modeSet b ∉ (ptwalk mem cr3 arg).events) := by
  have ht : (ptwalk mem cr3 arg).events.count (Event.modeSet true) = 0 :=
    List.count_eq_zero.mpr (ptwalk_no_modeSet mem cr3 arg true)
  have hf : (ptwalk mem cr3 arg).events.count (Event.modeSet false) = 0 :=
    List.count_eq_zero.mpr (ptwalk_no_modeSet mem cr3 arg false)
  refine ⟨rfl, ?_, ?_, ?_, ptwalk_no_modeSet mem cr3 arg⟩
  · show (Event.modeSet true :: ((ptwalk mem cr3 arg).events ++ [Event.modeSet false])).getLast?
      = some (Event.modeSet false)
    rw [← List.cons_append, List.getLast?_concat]
  · show (Event.modeSet true :: ((ptwalk mem cr3 arg).events ++ [Event.modeSet false])).count
      (Event.modeSet true) = 1
    rw [List.count_cons, List.count_append, ht]
    simp
  · show (Event.modeSet true :: ((ptwalk mem cr3 arg).events ++ [Event.modeSet false])).count
      (Event.modeSet false) = 1
    rw [List.count_cons, List.count_append, hf]
    simp

/-- C10: an argument that parses to an integer outside [0, 2^64) — a
negative decimal or a value of 2^64 or more — is not rejected as
`invalidAddress`: the translator reads the register and, when that
succeeds, runs the walk on the out-of-range value itself. -/
theorem out_of_range_vaddr_walks (mem : Int → Option Nat) (cr3 : Option Int)
    (s : String) (v : Int) (hp : pyParseInt0 s = some v)
    (hr : v < 0 ∨ 2 ^ 64 ≤ v) :
    (ptwalk mem cr3 s).result ≠ .invalidAddress ∧
    (∀ c, cr3 = some c →
      (ptwalk mem cr3 s).events = .regRead :: (walk mem c v).events ∧
      (ptwalk mem cr3 s).trace = (walk mem c v).trace ∧
      (ptwalk mem cr3 s).result = .walkResult (walk mem c v).result) ∧
    (cr3 = none → ptwalk mem cr3 s = ⟨[.regRead], [], .registerUnavailable⟩) := by
  cases cr3 with
  | none => simp [ptwalk, hp]
  | some c => simp [ptwalk, hp]

/-- Witness for `out_of_range_vaddr_walks` at the negative argument
`"-5"`. -/
theorem out_of_range_vaddr_walks_witness :
    pyParseInt0 "-5" = some (-5) ∧ ((-5 : Int) < 0 ∨ 2 ^ 64 ≤ (-5 : Int)) ∧
    (ptwalk (fun _ => some 0) (some 0) "-5").result ≠ TransResult.invalidAddress :=
  ⟨by decide, Or.inl (by decide),
    (out_of_range_vaddr_walks (fun _ => some 0) (some 0) "-5" (-5) (by decide)
      (Or.inl (by decide))).1⟩

end PTWalk
